import Mathlib

/-
Verification development for hw/ppc/spapr_caps.c (QEMU pSeries capability
negotiation and migration-compatibility engine).

Shallow embedding conventions:
- uint8_t capability levels are modelled as Nat (all comparisons in the C
  code are plain integer comparisons on small non-negative values);
- a capability set (sPAPRCapabilities) is a total map Fin SPAPR_CAP_NUM → Nat;
- error_setg / error_report outcomes are modelled as Option String values
  (none = no error) and explicit report lists;
- backend queries (tcg_enabled, kvm_enabled, kvmppc_get_cap_*, etc.) and the
  external ppc_type_check_compat test are fields of an Env record, since they
  live outside this file.
-/

/-- Modelled from the spec: SPAPR_CAP_NUM and the capability index constants
come from the machine header (hw/ppc/spapr.h), which is not under src/; the
index order follows the capability_table in spapr_caps.c. -/
abbrev SPAPR_CAP_NUM : Nat := 8

abbrev SPAPR_CAP_HTM : Fin SPAPR_CAP_NUM := 0

abbrev SPAPR_CAP_VSX : Fin SPAPR_CAP_NUM := 1

abbrev SPAPR_CAP_DFP : Fin SPAPR_CAP_NUM := 2

abbrev SPAPR_CAP_CFPC : Fin SPAPR_CAP_NUM := 3

abbrev SPAPR_CAP_SBBC : Fin SPAPR_CAP_NUM := 4

abbrev SPAPR_CAP_IBS : Fin SPAPR_CAP_NUM := 5

abbrev SPAPR_CAP_HPT_MAXPAGESIZE : Fin SPAPR_CAP_NUM := 6

abbrev SPAPR_CAP_NESTED_KVM_HV : Fin SPAPR_CAP_NUM := 7

/-- Modelled from the spec: capability level constants from hw/ppc/spapr.h
(not under src/): off/on for boolean caps, broken/workaround/fixed for
tristate caps. -/
abbrev SPAPR_CAP_OFF : Nat := 0

abbrev SPAPR_CAP_ON : Nat := 1

abbrev SPAPR_CAP_BROKEN : Nat := 0

abbrev SPAPR_CAP_WORKAROUND : Nat := 1

abbrev SPAPR_CAP_FIXED : Nat := 2

/-- Modelled from the spec: logical PVR constants from cpu-models.h (not under
src/); only their identity matters here, they are passed to the external
ppc_type_check_compat test. -/
abbrev CPU_POWERPC_LOGICAL_2_06 : Nat := 0x0F000003

abbrev CPU_POWERPC_LOGICAL_2_06_PLUS : Nat := 0x0F100003

abbrev CPU_POWERPC_LOGICAL_2_07 : Nat := 0x0F000004

/-- sPAPRCapabilities: fixed-size array of uint8_t capability levels,
modelled as a total map from capability index to level. -/
structure sPAPRCapabilities where
  caps : Fin SPAPR_CAP_NUM → Nat

/-- The fields of sPAPRMachineState (and of its machine class) that
spapr_caps.c reads or writes: the machine-class default caps, the maximum
compatibility PVR, the cpu type name, and the def/eff/mig capability sets
plus the cmd_line_caps flags.  The C field named def is called def_ here
because def is a Lean keyword. -/
structure sPAPRMachineState where
  smc_default_caps : sPAPRCapabilities
  max_compat_pvr : Nat
  cpu_type : String
  cmd_line_caps : Fin SPAPR_CAP_NUM → Bool
  def_ : sPAPRCapabilities
  eff : sPAPRCapabilities
  mig : sPAPRCapabilities

/-- Modelled from the spec: the backend profile.  These are the external
query functions spapr_caps.c calls (tcg_enabled, kvm_enabled, the
kvmppc_get_cap_* host ceilings, kvmppc_has_cap_* booleans, the nested-HV
enable call outcome, the host contiguous-page requirement and ram page size,
CPU instruction-set flags of the first cpu, and the processor compatibility
test ppc_type_check_compat(cputype, compat_pvr, min_compat_pvr,
max_compat_pvr)); none of them is defined under src/.  They are modelled as
uninterpreted record fields. -/
structure Env where
  tcg_enabled : Bool
  kvm_enabled : Bool
  kvmppc_has_cap_htm : Bool
  insns_flags_altivec : Bool
  insns_flags2_vsx : Bool
  insns_flags2_dfp : Bool
  kvmppc_get_cap_safe_cache : Nat
  kvmppc_get_cap_safe_bounds_check : Nat
  kvmppc_get_cap_safe_indirect_branch : Nat
  kvmppc_has_cap_nested_kvm_hv : Bool
  kvmppc_set_cap_nested_kvm_hv_ok : Bool
  kvmppc_hpt_needs_host_contiguous_pages : Bool
  qemu_getrampagesize : Nat
  ppc_type_check_compat : String → Nat → Nat → Nat → Bool

/-- sPAPRCapPossible: the value table of a string-typed capability (number of
values, help text, ordered label list). -/
structure sPAPRCapPossible where
  num : Nat
  help : String
  vals : List String

/-- Stands for a NULL possible pointer (boolean and pagesize caps). -/
def nullPossible : sPAPRCapPossible :=
  { num := 0, help := (""), vals := [] }

/-- The static descriptor data of a capability_table entry used by the code
modelled here: name, description, index, and the possible-value table. -/
structure sPAPRCapabilityInfo where
  name : String
  description : String
  index : Fin SPAPR_CAP_NUM
  possible : sPAPRCapPossible

/-- cap_cfpc_possible from spapr_caps.c (the two C string literals of help
are concatenated by the C compiler). -/
def cap_cfpc_possible : sPAPRCapPossible :=
  { num := 3,
    help := ("broken - no protection, workaround - workaround available, fixed - fixed in hardware"),
    vals := [("broken"), ("workaround"), ("fixed")] }

/-- cap_sbbc_possible from spapr_caps.c. -/
def cap_sbbc_possible : sPAPRCapPossible :=
  { num := 3,
    help := ("broken - no protection, workaround - workaround available, fixed - fixed in hardware"),
    vals := [("broken"), ("workaround"), ("fixed")] }

/-- cap_ibs_possible from spapr_caps.c. -/
def cap_ibs_possible : sPAPRCapPossible :=
  { num := 4,
    help := ("broken - no protection, fixed-ibs - indirect branch serialisation, fixed-ccd - cache count disabled"),
    vals := [("broken"), ("workaround"), ("fixed-ibs"), ("fixed-ccd")] }

/-- capability_table from spapr_caps.c: the static descriptor data per index
(the get/set/apply function pointers are modelled as the standalone Lean
functions below, dispatched by capability_apply). -/
def capability_table (i : Fin SPAPR_CAP_NUM) : sPAPRCapabilityInfo :=
  [ { name := ("htm"), description := ("Allow Hardware Transactional Memory (HTM)"),
      index := SPAPR_CAP_HTM, possible := nullPossible },
    { name := ("vsx"), description := ("Allow Vector Scalar Extensions (VSX)"),
      index := SPAPR_CAP_VSX, possible := nullPossible },
    { name := ("dfp"), description := ("Allow Decimal Floating Point (DFP)"),
      index := SPAPR_CAP_DFP, possible := nullPossible },
    { name := ("cfpc"), description := ("Cache Flush on Privilege Change (broken, workaround, fixed)"),
      index := SPAPR_CAP_CFPC, possible := cap_cfpc_possible },
    { name := ("sbbc"), description := ("Speculation Barrier Bounds Checking (broken, workaround, fixed)"),
      index := SPAPR_CAP_SBBC, possible := cap_sbbc_possible },
    { name := ("ibs"), description := ("Indirect Branch Speculation (broken, fixed-ibs, fixed-ccd)"),
      index := SPAPR_CAP_IBS, possible := cap_ibs_possible },
    { name := ("hpt-max-page-size"), description := ("Maximum page size for Hash Page Table guests"),
      index := SPAPR_CAP_HPT_MAXPAGESIZE, possible := nullPossible },
    { name := ("nested-hv"), description := ("Allow Nested KVM-HV"),
      index := SPAPR_CAP_NESTED_KVM_HV, possible := nullPossible }
  ].getD i.val { name := (""), description := (""), index := 0, possible := nullPossible }

/-- is_power_of_2 from qemu/host-utils.h as used by spapr_cap_set_pagesize:
value nonzero and value AND (value - 1) is zero. -/
def is_power_of_2 (value : Nat) : Bool :=
  decide (value ≠ 0) && decide (value &&& (value - 1) = 0)

/-- Helper for ctz64: count trailing zero bits with explicit fuel (64 bits,
matching the uint64_t width; ctz64 0 = 64 as in the C helper). -/
def ctz64_go : Nat → Nat → Nat
  | 0, _ => 0
  | fuel + 1, n => if n % 2 = 0 then ctz64_go fuel (n / 2) + 1 else 0

/-- ctz64 from qemu/host-utils.h: trailing zero count of a 64-bit value. -/
def ctz64 (n : Nat) : Nat := ctz64_go 64 (n % 2 ^ 64)

/-- ASCII tolower on a character code, as strcasecmp applies it. -/
def tolower_code (n : Nat) : Nat := if 65 ≤ n ∧ n ≤ 90 then n + 32 else n

/-- Equality test used through strcasecmp in spapr_cap_set_string:
ASCII case-insensitive string comparison. -/
def strcaseeq (a b : String) : Bool :=
  a.data.map (fun c => tolower_code c.toNat) == b.data.map (fun c => tolower_code c.toNat)

/-- spapr_cap_set_string (spapr_caps.c, lines 116-147), after a successful
visit_type_str: the query value is compared with strcmp (exact), each table
label with strcasecmp; on a label match the cmd_line flag is set and the
label index stored into eff; otherwise the state is unchanged and an error
is produced.  Returns the new machine state and the error outcome. -/
def spapr_cap_set_string (cap : sPAPRCapabilityInfo) (spapr : sPAPRMachineState)
    (val : String) : sPAPRMachineState × Option String :=
  if val = "?" then
    (spapr, some cap.possible.help)
  else
    match (cap.possible.vals.take cap.possible.num).findIdx? (fun v => strcaseeq val v) with
    | some i =>
        ({ spapr with
             cmd_line_caps := Function.update spapr.cmd_line_caps cap.index true,
             eff := ⟨Function.update spapr.eff.caps cap.index i⟩ }, none)
    | none =>
        (spapr, some ("Invalid capability mode \"" ++ val ++ "\" for cap-" ++ cap.name))

/-- spapr_cap_set_pagesize (spapr_caps.c, lines 160-183), after a successful
visit_type_size: a non-power-of-two value is rejected with no state change;
otherwise the cmd_line flag is set and ctz64(pagesize) stored into eff. -/
def spapr_cap_set_pagesize (cap : sPAPRCapabilityInfo) (spapr : sPAPRMachineState)
    (pagesize : Nat) : sPAPRMachineState × Option String :=
  if ¬ is_power_of_2 pagesize then
    (spapr, some ("cap-" ++ cap.name ++ " must be a power of 2"))
  else
    ({ spapr with
         cmd_line_caps := Function.update spapr.cmd_line_caps cap.index true,
         eff := ⟨Function.update spapr.eff.caps cap.index (ctz64 pagesize)⟩ }, none)

/-- cap_htm_apply (spapr_caps.c, lines 185-199). -/
def cap_htm_apply (env : Env) (val : Nat) : Option String :=
  if val = 0 then none
  else if env.tcg_enabled then
    some ("No Transactional Memory support in TCG, try cap-htm=off")
  else if env.kvm_enabled ∧ ¬ env.kvmppc_has_cap_htm then
    some ("KVM implementation does not support Transactional Memory, try cap-htm=off")
  else none

/-- cap_vsx_apply (spapr_caps.c, lines 201-216); the g_assert on
PPC_ALTIVEC concerns states already excluded by cpu-core filtering and
is not an error_setg outcome. -/
def cap_vsx_apply (env : Env) (val : Nat) : Option String :=
  if val = 0 then none
  else if ¬ env.insns_flags2_vsx then
    some ("VSX support not available, try cap-vsx=off")
  else none

/-- cap_dfp_apply (spapr_caps.c, lines 218-230). -/
def cap_dfp_apply (env : Env) (val : Nat) : Option String :=
  if val = 0 then none
  else if ¬ env.insns_flags2_dfp then
    some ("DFP support not available, try cap-dfp=off")
  else none

/-- cap_safe_cache_apply (spapr_caps.c, lines 239-253). -/
def cap_safe_cache_apply (env : Env) (val : Nat) : Option String :=
  if env.tcg_enabled ∧ val ≠ 0 then
    some ("Requested safe cache capability level not supported by tcg, try a different value for cap-cfpc")
  else if env.kvm_enabled ∧ env.kvmppc_get_cap_safe_cache < val then
    some ("Requested safe cache capability level not supported by kvm, try cap-cfpc="
          ++ cap_cfpc_possible.vals.getD env.kvmppc_get_cap_safe_cache (""))
  else none

/-- cap_safe_bounds_check_apply (spapr_caps.c, lines 262-276). -/
def cap_safe_bounds_check_apply (env : Env) (val : Nat) : Option String :=
  if env.tcg_enabled ∧ val ≠ 0 then
    some ("Requested safe bounds check capability level not supported by tcg, try a different value for cap-sbbc")
  else if env.kvm_enabled ∧ env.kvmppc_get_cap_safe_bounds_check < val then
    some ("Requested safe bounds check capability level not supported by kvm, try cap-sbbc="
          ++ cap_sbbc_possible.vals.getD env.kvmppc_get_cap_safe_bounds_check (""))
  else none

/-- cap_safe_indirect_branch_apply (spapr_caps.c, lines 286-304): the
workaround level is never valid; under tcg any nonzero level fails; under
kvm any nonzero level different from the host-reported level fails. -/
def cap_safe_indirect_branch_apply (env : Env) (val : Nat) : Option String :=
  if val = SPAPR_CAP_WORKAROUND then
    some ("Requested safe indirect branch capability level \"workaround\" not valid, try cap-ibs="
          ++ cap_ibs_possible.vals.getD env.kvmppc_get_cap_safe_indirect_branch (""))
  else if env.tcg_enabled ∧ val ≠ 0 then
    some ("Requested safe indirect branch capability level not supported by tcg, try a different value for cap-ibs")
  else if env.kvm_enabled ∧ val ≠ 0 ∧ val ≠ env.kvmppc_get_cap_safe_indirect_branch then
    some ("Requested safe indirect branch capability level not supported by kvm, try cap-ibs="
          ++ cap_ibs_possible.vals.getD env.kvmppc_get_cap_safe_indirect_branch (""))
  else none

/-- spapr_check_pagesize (spapr_caps.c, lines 308-323): with the level's
2-power as the configured maximum, fail when the host needs contiguous pages
and the configured maximum exceeds the given (host) page size. -/
def spapr_check_pagesize (env : Env) (spapr : sPAPRMachineState)
    (pagesize : Nat) : Option String :=
  let maxpagesize := 2 ^ spapr.eff.caps SPAPR_CAP_HPT_MAXPAGESIZE
  if ¬ env.kvmppc_hpt_needs_host_contiguous_pages then none
  else if pagesize < maxpagesize then
    some ("Can\x27t support " ++ toString (maxpagesize / 1024) ++ " kiB guest pages with "
          ++ toString (pagesize / 1024) ++ " kiB host pages with this KVM implementation")
  else none

/-- cap_hpt_maxpagesize_apply (spapr_caps.c, lines 325-336): a level below 12
(4kiB) is an error; a level below 16 (64kiB) only produces a warn_report;
then spapr_check_pagesize runs against qemu_getrampagesize().  Returns the
error outcome and the list of warnings emitted. -/
def cap_hpt_maxpagesize_apply (env : Env) (spapr : sPAPRMachineState)
    (val : Nat) : Option String × List String :=
  if val < 12 then
    (some ("Require at least 4kiB hpt-max-page-size"), [])
  else
    let warns := if val < 16 then [("Many guests require at least 64kiB hpt-max-page-size")] else []
    (spapr_check_pagesize env spapr env.qemu_getrampagesize, warns)

/-- spapr_pagesize_cb (spapr_caps.c, lines 338-360), the page-size filter
predicate: with the configured maximum shift, a candidate page shift is
allowed iff it does not exceed the maximum and either equals the segment
shift or is the special 16MiB shift 24.  The C code asserts
pshift >= seg_pshift on entry. -/
def spapr_pagesize_cb (maxshift seg_pshift pshift : Nat) : Bool :=
  if maxshift < pshift then false
  else if pshift ≠ seg_pshift ∧ pshift ≠ 24 then false
  else true

/-- cap_hpt_maxpagesize_cpu_apply (spapr_caps.c, lines 362-369): filters the
cpu page sizes with spapr_pagesize_cb, the configured maximum shift being
the capability level; modelled as the predicate actually passed to
ppc_hash64_filter_pagesizes. -/
def cap_hpt_maxpagesize_cpu_apply (val : Nat) (seg_pshift pshift : Nat) : Bool :=
  spapr_pagesize_cb val seg_pshift pshift

/-- cap_nested_kvm_hv_apply (spapr_caps.c, lines 371-391). -/
def cap_nested_kvm_hv_apply (env : Env) (val : Nat) : Option String :=
  if val = 0 then none
  else if env.tcg_enabled then
    some ("No Nested KVM-HV support in tcg, try cap-nested-hv=off")
  else if env.kvm_enabled then
    if ¬ env.kvmppc_has_cap_nested_kvm_hv then
      some ("KVM implementation does not support Nested KVM-HV, try cap-nested-hv=off")
    else if ¬ env.kvmppc_set_cap_nested_kvm_hv_ok then
      some ("Error enabling cap-nested-hv with KVM, try cap-nested-hv=off")
    else none
  else none

/-- Dispatch of the per-capability apply function pointers of
capability_table, in table order (result of the error outcome only; the
hpt-max-page-size warnings are in cap_hpt_maxpagesize_apply). -/
def capability_apply (i : Fin SPAPR_CAP_NUM) (env : Env) (spapr : sPAPRMachineState)
    (val : Nat) : Option String :=
  [ cap_htm_apply env val,
    cap_vsx_apply env val,
    cap_dfp_apply env val,
    cap_safe_cache_apply env val,
    cap_safe_bounds_check_apply env val,
    cap_safe_indirect_branch_apply env val,
    (cap_hpt_maxpagesize_apply env spapr val).1,
    cap_nested_kvm_hv_apply env val ].getD i.val none

/-- default_caps_with_cpu (spapr_caps.c, lines 473-513): start from the
machine-class default caps; force HTM/CFPC, SBBC, VSX/DFP/IBS down to their
weakest level when the respective processor-compatibility threshold is not
met; and, when the machine-class default left hpt-max-page-size at 0,
synthesize it from the host ram page size (or 34 when host contiguous pages
are not needed). -/
def default_caps_with_cpu (env : Env) (spapr : sPAPRMachineState)
    (cputype : String) : sPAPRCapabilities :=
  let caps := spapr.smc_default_caps
  let caps :=
    if ¬ env.ppc_type_check_compat cputype CPU_POWERPC_LOGICAL_2_07 0 spapr.max_compat_pvr then
      ⟨Function.update (Function.update caps.caps SPAPR_CAP_HTM SPAPR_CAP_OFF)
        SPAPR_CAP_CFPC SPAPR_CAP_BROKEN⟩
    else caps
  let caps :=
    if ¬ env.ppc_type_check_compat cputype CPU_POWERPC_LOGICAL_2_06_PLUS 0 spapr.max_compat_pvr then
      ⟨Function.update caps.caps SPAPR_CAP_SBBC SPAPR_CAP_BROKEN⟩
    else caps
  let caps :=
    if ¬ env.ppc_type_check_compat cputype CPU_POWERPC_LOGICAL_2_06 0 spapr.max_compat_pvr then
      ⟨Function.update (Function.update (Function.update caps.caps SPAPR_CAP_VSX SPAPR_CAP_OFF)
        SPAPR_CAP_DFP SPAPR_CAP_OFF) SPAPR_CAP_IBS SPAPR_CAP_BROKEN⟩
    else caps
  let caps :=
    if spapr.smc_default_caps.caps SPAPR_CAP_HPT_MAXPAGESIZE = 0 then
      let mps := if env.kvmppc_hpt_needs_host_contiguous_pages
                 then ctz64 env.qemu_getrampagesize else 34
      ⟨Function.update caps.caps SPAPR_CAP_HPT_MAXPAGESIZE mps⟩
    else caps
  caps

/-- The srccaps reconstruction loop of spapr_caps_post_migration
(spapr_caps.c, lines 543-549): srccaps starts as default_caps_with_cpu and
each loop iteration overwrites exactly index i with mig.caps[i] when
mig.caps[i] differs from def.caps[i]; the loop condition reads only mig and
def, so the loop is its pointwise effect. -/
def reconstruct_srccaps (env : Env) (spapr : sPAPRMachineState) : sPAPRCapabilities :=
  let base := default_caps_with_cpu env spapr spapr.cpu_type
  ⟨fun i => if spapr.mig.caps i ≠ spapr.def_.caps i then spapr.mig.caps i else base.caps i⟩

/-- EINVAL from errno.h. -/
abbrev EINVAL : Int := 22

/-- Result of spapr_caps_post_migration: the machine state after the call
(the C body writes no sPAPRMachineState field, only the local copies dstcaps
and srccaps), the return value, and the error_report and warn_report lines
(capability name, source level, destination level) in table order. -/
structure PostMigResult where
  spapr : sPAPRMachineState
  ret : Int
  errors : List (String × Nat × Nat)
  warnings : List (String × Nat × Nat)

/-- spapr_caps_post_migration (spapr_caps.c, lines 536-567): dstcaps is the
local eff set, srccaps the reconstruction above; the check loop visits every
index, reporting an error for srccaps > dstcaps (clearing ok) and a warning
for srccaps < dstcaps; the function returns 0 when ok, -EINVAL otherwise. -/
def spapr_caps_post_migration (env : Env) (spapr : sPAPRMachineState) : PostMigResult :=
  let dstcaps := spapr.eff
  let srccaps := reconstruct_srccaps env spapr
  let errors := (List.finRange SPAPR_CAP_NUM).filterMap (fun i =>
    if dstcaps.caps i < srccaps.caps i then
      some ((capability_table i).name, srccaps.caps i, dstcaps.caps i)
    else none)
  let warnings := (List.finRange SPAPR_CAP_NUM).filterMap (fun i =>
    if srccaps.caps i < dstcaps.caps i then
      some ((capability_table i).name, srccaps.caps i, dstcaps.caps i)
    else none)
  let ok := errors.isEmpty
  { spapr := spapr, ret := if ok then 0 else -EINVAL,
    errors := errors, warnings := warnings }

/-- Builds a capability set from a list of levels in index order. -/
def mkCaps (l : List Nat) : sPAPRCapabilities :=
  ⟨fun i => l.getD i.val 0⟩

/-- Concrete backend profile for evaluation: KVM enabled, every host
facility present, cfpc/sbbc host ceilings at fixed (2), ibs host level at
fixed-ccd (3), 64kiB ram pages, every compatibility threshold met. -/
def env0 : Env :=
  { tcg_enabled := false,
    kvm_enabled := true,
    kvmppc_has_cap_htm := true,
    insns_flags_altivec := true,
    insns_flags2_vsx := true,
    insns_flags2_dfp := true,
    kvmppc_get_cap_safe_cache := 2,
    kvmppc_get_cap_safe_bounds_check := 2,
    kvmppc_get_cap_safe_indirect_branch := 3,
    kvmppc_has_cap_nested_kvm_hv := true,
    kvmppc_set_cap_nested_kvm_hv_ok := true,
    kvmppc_hpt_needs_host_contiguous_pages := false,
    qemu_getrampagesize := 65536,
    ppc_type_check_compat := fun _ _ _ _ => true }

/-- Concrete baseline capability set: htm/vsx/dfp off, cfpc/sbbc/ibs at
level 2, hpt-max-page-size at 16, nested-hv off. -/
def capsW : sPAPRCapabilities := mkCaps [0, 0, 0, 2, 2, 2, 16, 0]

/-- Concrete machine state at the baseline defaults. -/
def sW : sPAPRMachineState :=
  { smc_default_caps := capsW,
    max_compat_pvr := 0,
    cpu_type := ("power9"),
    cmd_line_caps := fun _ => false,
    def_ := capsW,
    eff := capsW,
    mig := capsW }

/-- Concrete migration-receive state with a hard violation: the destination
runs cfpc at 0 while the incoming stream carried cfpc at 2. -/
def sW1 : sPAPRMachineState := { sW with eff := mkCaps [0, 0, 0, 0, 2, 2, 16, 0] }

/-- Concrete migration-receive state with a safe downgrade only: the
incoming stream carried cfpc at 0 while the destination runs it at 2. -/
def sW3 : sPAPRMachineState := { sW with mig := mkCaps [0, 0, 0, 0, 2, 2, 16, 0] }

theorem post_migration_errors_def (env : Env) (spapr : sPAPRMachineState) :
    (spapr_caps_post_migration env spapr).errors
      = (List.finRange SPAPR_CAP_NUM).filterMap (fun i =>
          if spapr.eff.caps i < (reconstruct_srccaps env spapr).caps i then
            some ((capability_table i).name, (reconstruct_srccaps env spapr).caps i,
                  spapr.eff.caps i)
          else none) := rfl

theorem post_migration_warnings_def (env : Env) (spapr : sPAPRMachineState) :
    (spapr_caps_post_migration env spapr).warnings
      = (List.finRange SPAPR_CAP_NUM).filterMap (fun i =>
          if (reconstruct_srccaps env spapr).caps i < spapr.eff.caps i then
            some ((capability_table i).name, (reconstruct_srccaps env spapr).caps i,
                  spapr.eff.caps i)
          else none) := rfl

theorem post_migration_ret_def (env : Env) (spapr : sPAPRMachineState) :
    (spapr_caps_post_migration env spapr).ret
      = if (spapr_caps_post_migration env spapr).errors.isEmpty then 0 else -EINVAL := rfl

theorem post_migration_errors_eq_nil (env : Env) (spapr : sPAPRMachineState) :
    (spapr_caps_post_migration env spapr).errors = [] ↔
      ∀ i, ¬ spapr.eff.caps i < (reconstruct_srccaps env spapr).caps i := by
  rw [post_migration_errors_def, List.filterMap_eq_nil_iff]
  constructor
  · intro h i hi
    have := h i (List.mem_finRange i)
    rw [if_pos hi] at this
    exact Option.some_ne_none _ this
  · intro h i _
    rw [if_neg (h i)]

/-- C1: spapr_caps_post_migration returns -EINVAL iff some capability index
has its reconstructed source level strictly above the destination effective
level, and for every such index the error reports carry that capability's
name together with the source and destination levels (the loop scans all
SPAPR_CAP_NUM indices, so every violation is reported). -/
theorem spapr_caps_post_migration_fails_iff_violation (env : Env) (spapr : sPAPRMachineState) :
    ((spapr_caps_post_migration env spapr).ret = -EINVAL ↔
      ∃ i, spapr.eff.caps i < (reconstruct_srccaps env spapr).caps i) ∧
    (∀ i, spapr.eff.caps i < (reconstruct_srccaps env spapr).caps i →
      ((capability_table i).name, (reconstruct_srccaps env spapr).caps i, spapr.eff.caps i)
        ∈ (spapr_caps_post_migration env spapr).errors) := by
  constructor
  · rw [post_migration_ret_def]
    constructor
    · intro hr
      by_contra hno
      push_neg at hno
      have hnil : (spapr_caps_post_migration env spapr).errors = [] :=
        (post_migration_errors_eq_nil env spapr).mpr (fun i => not_lt.mpr (hno i))
      rw [hnil] at hr
      simp only [List.isEmpty_nil, if_true] at hr
      exact absurd hr (by decide)
    · rintro ⟨i, hi⟩
      have hne : (spapr_caps_post_migration env spapr).errors ≠ [] := by
        intro hnil
        exact (post_migration_errors_eq_nil env spapr).mp hnil i hi
      have : (spapr_caps_post_migration env spapr).errors.isEmpty = false := by
        rcases h : (spapr_caps_post_migration env spapr).errors with _ | ⟨a, l⟩
        · exact absurd h hne
        · rfl
      rw [this]
      rfl
  · intro i hi
    rw [post_migration_errors_def, List.mem_filterMap]
    exact ⟨i, List.mem_finRange i, by rw [if_pos hi]⟩

/-- Closed instance of C1: with the incoming cfpc level 2 against a
destination effective cfpc level 0, the check fails and reports cfpc with
levels 2 and 0. -/
theorem spapr_caps_post_migration_fails_iff_violation_witness :
    (spapr_caps_post_migration env0 sW1).ret = -EINVAL ∧
    ((capability_table 3).name, (reconstruct_srccaps env0 sW1).caps 3, sW1.eff.caps 3)
      ∈ (spapr_caps_post_migration env0 sW1).errors :=
  ⟨(spapr_caps_post_migration_fails_iff_violation env0 sW1).1.mpr ⟨3, by decide⟩,
   (spapr_caps_post_migration_fails_iff_violation env0 sW1).2 3 (by decide)⟩

/-- C2: in spapr_caps_post_migration the reconstructed source set equals the
freshly recomputed default set at every index where the migrated value equals
the stored default, and equals the migrated value where the two differ. -/
theorem reconstruct_srccaps_pointwise (env : Env) (spapr : sPAPRMachineState)
    (i : Fin SPAPR_CAP_NUM) :
    (spapr.mig.caps i = spapr.def_.caps i →
      (reconstruct_srccaps env spapr).caps i
        = (default_caps_with_cpu env spapr spapr.cpu_type).caps i) ∧
    (spapr.mig.caps i ≠ spapr.def_.caps i →
      (reconstruct_srccaps env spapr).caps i = spapr.mig.caps i) := by
  constructor
  · intro h
    simp [reconstruct_srccaps, h]
  · intro h
    simp [reconstruct_srccaps, h]

/-- Closed instance of C2: in sW3 the migrated cfpc value (0) differs from
the stored default (2) and is taken over, while the migrated htm value
equals the default and the recomputed default is used. -/
theorem reconstruct_srccaps_pointwise_witness :
    (reconstruct_srccaps env0 sW3).caps 3 = sW3.mig.caps 3 ∧
    (reconstruct_srccaps env0 sW3).caps 0
      = (default_caps_with_cpu env0 sW3 sW3.cpu_type).caps 0 :=
  ⟨(reconstruct_srccaps_pointwise env0 sW3 3).2 (by decide),
   (reconstruct_srccaps_pointwise env0 sW3 0).1 (by decide)⟩

/-- C3: every index with the reconstructed source level strictly below the
destination effective level is reported as a warning with that capability's
name and both levels, and when no index has a source level strictly above
the destination effective level the check returns 0 despite the warnings. -/
theorem spapr_caps_post_migration_warns_and_succeeds (env : Env) (spapr : sPAPRMachineState) :
    (∀ i, (reconstruct_srccaps env spapr).caps i < spapr.eff.caps i →
      ((capability_table i).name, (reconstruct_srccaps env spapr).caps i, spapr.eff.caps i)
        ∈ (spapr_caps_post_migration env spapr).warnings) ∧
    ((∀ i, ¬ spapr.eff.caps i < (reconstruct_srccaps env spapr).caps i) →
      (spapr_caps_post_migration env spapr).ret = 0) := by
  constructor
  · intro i hi
    rw [post_migration_warnings_def, List.mem_filterMap]
    exact ⟨i, List.mem_finRange i, by rw [if_pos hi]⟩
  · intro h
    rw [post_migration_ret_def, (post_migration_errors_eq_nil env spapr).mpr h]
    rfl

/-- Closed instance of C3: with the incoming cfpc level 0 against a
destination effective cfpc level 2, the check warns about cfpc with levels
0 and 2 yet returns 0. -/
theorem spapr_caps_post_migration_warns_and_succeeds_witness :
    ((capability_table 3).name, (reconstruct_srccaps env0 sW3).caps 3, sW3.eff.caps 3)
      ∈ (spapr_caps_post_migration env0 sW3).warnings ∧
    (spapr_caps_post_migration env0 sW3).ret = 0 :=
  ⟨(spapr_caps_post_migration_warns_and_succeeds env0 sW3).1 3 (by decide),
   (spapr_caps_post_migration_warns_and_succeeds env0 sW3).2 (by decide)⟩

/-- C4: default_caps_with_cpu is pure and deterministic: it reads only the
machine-class default caps, the maximum compatibility PVR, the cpu type and
the backend facts (compatibility test, contiguous-page requirement, ram page
size), and any two calls agreeing on those inputs return identical
capability sets; as a total Lean function it always terminates and returns a
capability set on every input. -/
theorem default_caps_with_cpu_deterministic (env1 env2 : Env)
    (s1 s2 : sPAPRMachineState) (ct1 ct2 : String)
    (h1 : env1.ppc_type_check_compat = env2.ppc_type_check_compat)
    (h2 : env1.kvmppc_hpt_needs_host_contiguous_pages
          = env2.kvmppc_hpt_needs_host_contiguous_pages)
    (h3 : env1.qemu_getrampagesize = env2.qemu_getrampagesize)
    (h4 : s1.smc_default_caps = s2.smc_default_caps)
    (h5 : s1.max_compat_pvr = s2.max_compat_pvr)
    (h6 : ct1 = ct2) :
    default_caps_with_cpu env1 s1 ct1 = default_caps_with_cpu env2 s2 ct2 := by
  simp only [default_caps_with_cpu, h1, h2, h3, h4, h5, h6]

/-- Closed instance of C4: an environment change of the execution mode alone
(a field the function does not read) leaves the computed default set
untouched. -/
theorem default_caps_with_cpu_deterministic_witness :
    default_caps_with_cpu env0 sW ("power9")
      = default_caps_with_cpu { env0 with tcg_enabled := true } sW ("power9") :=
  default_caps_with_cpu_deterministic env0 { env0 with tcg_enabled := true }
    sW sW ("power9") ("power9") rfl rfl rfl rfl rfl rfl

/-- C5: spapr_caps_post_migration never mutates the destination machine
state: the default, effective, incoming sets and the explicitly-set flags
are all unchanged whether the check succeeds or fails (its only outputs are
the return value and the reports). -/
theorem spapr_caps_post_migration_preserves_state (env : Env) (spapr : sPAPRMachineState) :
    (spapr_caps_post_migration env spapr).spapr = spapr ∧
    (spapr_caps_post_migration env spapr).spapr.def_ = spapr.def_ ∧
    (spapr_caps_post_migration env spapr).spapr.eff = spapr.eff ∧
    (spapr_caps_post_migration env spapr).spapr.mig = spapr.mig ∧
    (spapr_caps_post_migration env spapr).spapr.cmd_line_caps = spapr.cmd_line_caps :=
  ⟨rfl, rfl, rfl, rfl, rfl⟩

/-- C6 (amended): under the KVM backend, for the cfpc and sbbc capabilities
a level strictly above the host-reported ceiling fails with an error message
that includes the highest level the host does support, and a level at or
below the ceiling passes; for ibs, a nonzero level different from the
host-reported level always fails (in particular the workaround level always
fails) with a message naming the host-reported level, and only level 0 or
exactly the host-reported level (other than workaround) pass, so an ibs
level at or below the host level can still fail. -/
theorem kvm_ceiling_check (env : Env) (val : Nat)
    (hkvm : env.kvm_enabled = true) (htcg : env.tcg_enabled = false) :
    (env.kvmppc_get_cap_safe_cache < val →
      cap_safe_cache_apply env val
        = some ("Requested safe cache capability level not supported by kvm, try cap-cfpc="
                ++ cap_cfpc_possible.vals.getD env.kvmppc_get_cap_safe_cache (""))) ∧
    (val ≤ env.kvmppc_get_cap_safe_cache → cap_safe_cache_apply env val = none) ∧
    (env.kvmppc_get_cap_safe_bounds_check < val →
      cap_safe_bounds_check_apply env val
        = some ("Requested safe bounds check capability level not supported by kvm, try cap-sbbc="
                ++ cap_sbbc_possible.vals.getD env.kvmppc_get_cap_safe_bounds_check (""))) ∧
    (val ≤ env.kvmppc_get_cap_safe_bounds_check → cap_safe_bounds_check_apply env val = none) ∧
    (val ≠ 0 → val ≠ env.kvmppc_get_cap_safe_indirect_branch →
      ∃ m, cap_safe_indirect_branch_apply env val
        = some (m ++ cap_ibs_possible.vals.getD env.kvmppc_get_cap_safe_indirect_branch (""))) ∧
    (val = SPAPR_CAP_WORKAROUND →
      ∃ m, cap_safe_indirect_branch_apply env val
        = some (m ++ cap_ibs_possible.vals.getD env.kvmppc_get_cap_safe_indirect_branch (""))) ∧
    ((val = 0 ∨ (val = env.kvmppc_get_cap_safe_indirect_branch ∧ val ≠ SPAPR_CAP_WORKAROUND)) →
      cap_safe_indirect_branch_apply env val = none) := by
  refine ⟨?_, ?_, ?_, ?_, ?_, ?_, ?_⟩
  · intro h
    simp [cap_safe_cache_apply, htcg, hkvm, h]
  · intro h
    simp [cap_safe_cache_apply, htcg, hkvm, not_lt.mpr h]
  · intro h
    simp [cap_safe_bounds_check_apply, htcg, hkvm, h]
  · intro h
    simp [cap_safe_bounds_check_apply, htcg, hkvm, not_lt.mpr h]
  · intro h0 hk
    by_cases hw : val = SPAPR_CAP_WORKAROUND
    · exact ⟨("Requested safe indirect branch capability level \"workaround\" not valid, try cap-ibs="),
        by simp [cap_safe_indirect_branch_apply, hw]⟩
    · exact ⟨("Requested safe indirect branch capability level not supported by kvm, try cap-ibs="),
        by simp [cap_safe_indirect_branch_apply, hw, htcg, hkvm, h0, hk]⟩
  · intro hw
    exact ⟨("Requested safe indirect branch capability level \"workaround\" not valid, try cap-ibs="),
      by simp [cap_safe_indirect_branch_apply, hw]⟩
  · rintro (h0 | ⟨hk, hw⟩)
    · simp [cap_safe_indirect_branch_apply, h0, htcg]
    · rw [hk] at hw
      simp [cap_safe_indirect_branch_apply, hk, hw, htcg, hkvm]

/-- Closed instance of C6 (amended): with host safe-cache ceiling 2, level 3
fails naming the level-2 label and level 2 passes; with host ibs level 3,
level 3 passes. -/
theorem kvm_ceiling_check_witness :
    cap_safe_cache_apply env0 3
      = some ("Requested safe cache capability level not supported by kvm, try cap-cfpc="
              ++ cap_cfpc_possible.vals.getD 2 ("")) ∧
    cap_safe_cache_apply env0 2 = none ∧
    cap_safe_indirect_branch_apply env0 3 = none :=
  ⟨(kvm_ceiling_check env0 3 rfl rfl).1 (by decide),
   (kvm_ceiling_check env0 2 rfl rfl).2.1 (by decide),
   (kvm_ceiling_check env0 3 rfl rfl).2.2.2.2.2.2 (Or.inr ⟨by decide, by decide⟩)⟩

/-- Counterexample to C6 as stated: under the KVM backend with the host
reporting ibs level 3 (fixed-ccd), requesting level 2 (fixed-ibs) is at or
below the host ceiling yet the apply function fails. -/
theorem kvm_ceiling_check_counterexample :
    env0.kvm_enabled = true ∧ env0.tcg_enabled = false ∧
    2 ≤ env0.kvmppc_get_cap_safe_indirect_branch ∧
    cap_safe_indirect_branch_apply env0 2 ≠ none := by decide

/-- C7 (amended): setting the pagesize capability with a value that is not
an exact power of two fails and leaves the machine state (in particular the
effective level and the explicitly-set flag) unchanged; any power-of-two
value is accepted by the setter, which sets the flag and stores the log2
exponent even when it is below the minimum of 12 — that minimum is enforced
only later by the apply step, which fails for exponents below 12. -/
theorem spapr_cap_set_pagesize_power_of_two (cap : sPAPRCapabilityInfo)
    (spapr : sPAPRMachineState) (pagesize : Nat) :
    (is_power_of_2 pagesize = false →
      spapr_cap_set_pagesize cap spapr pagesize
        = (spapr, some ("cap-" ++ cap.name ++ " must be a power of 2"))) ∧
    (is_power_of_2 pagesize = true →
      spapr_cap_set_pagesize cap spapr pagesize
        = ({ spapr with
               cmd_line_caps := Function.update spapr.cmd_line_caps cap.index true,
               eff := ⟨Function.update spapr.eff.caps cap.index (ctz64 pagesize)⟩ }, none)) ∧
    (∀ env v, v < 12 →
      (cap_hpt_maxpagesize_apply env spapr v).1
        = some ("Require at least 4kiB hpt-max-page-size")) := by
  refine ⟨?_, ?_, ?_⟩
  · intro h
    simp [spapr_cap_set_pagesize, h]
  · intro h
    simp [spapr_cap_set_pagesize, h]
  · intro env v hv
    simp [cap_hpt_maxpagesize_apply, hv]

/-- Closed instance of C7 (amended): 12345 is rejected with no state change
and exponent 11 is rejected by the apply step. -/
theorem spapr_cap_set_pagesize_power_of_two_witness :
    spapr_cap_set_pagesize (capability_table 6) sW 12345
      = (sW, some ("cap-hpt-max-page-size must be a power of 2")) ∧
    (cap_hpt_maxpagesize_apply env0 sW 11).1
      = some ("Require at least 4kiB hpt-max-page-size") :=
  ⟨(spapr_cap_set_pagesize_power_of_two (capability_table 6) sW 12345).1 (by decide),
   (spapr_cap_set_pagesize_power_of_two (capability_table 6) sW 12345).2.2 env0 11 (by decide)⟩

/-- Counterexample to C7 as stated: 2048 bytes is an exact power of two with
exponent 11, below the minimum 12, yet the setter succeeds (no InvalidValue)
and mutates both the effective level and the explicitly-set flag. -/
theorem spapr_cap_set_pagesize_counterexample :
    is_power_of_2 2048 = true ∧ ctz64 2048 = 11 ∧
    (spapr_cap_set_pagesize (capability_table 6) sW 2048).2 = none ∧
    ((spapr_cap_set_pagesize (capability_table 6) sW 2048).1).eff.caps
      SPAPR_CAP_HPT_MAXPAGESIZE = 11 ∧
    ((spapr_cap_set_pagesize (capability_table 6) sW 2048).1).cmd_line_caps
      SPAPR_CAP_HPT_MAXPAGESIZE = true ∧
    sW.eff.caps SPAPR_CAP_HPT_MAXPAGESIZE = 16 ∧
    sW.cmd_line_caps SPAPR_CAP_HPT_MAXPAGESIZE = false := by decide

/-- C8: setting a string capability to the query value always fails with
exactly the descriptor's help text and no state change; an unrecognized
label fails with an invalid-mode message and no state change; a label
matched case-insensitively sets the explicitly-set flag and stores the
label's ordinal into the effective set. -/
theorem spapr_cap_set_string_cases (cap : sPAPRCapabilityInfo) (spapr : sPAPRMachineState) :
    (spapr_cap_set_string cap spapr ("?") = (spapr, some cap.possible.help)) ∧
    (∀ val, val ≠ "?" →
      (cap.possible.vals.take cap.possible.num).findIdx? (fun v => strcaseeq val v) = none →
      spapr_cap_set_string cap spapr val
        = (spapr, some ("Invalid capability mode \"" ++ val ++ "\" for cap-" ++ cap.name))) ∧
    (∀ val i, val ≠ "?" →
      (cap.possible.vals.take cap.possible.num).findIdx? (fun v => strcaseeq val v) = some i →
      spapr_cap_set_string cap spapr val
        = ({ spapr with
               cmd_line_caps := Function.update spapr.cmd_line_caps cap.index true,
               eff := ⟨Function.update spapr.eff.caps cap.index i⟩ }, none)) := by
  refine ⟨?_, ?_, ?_⟩
  · simp [spapr_cap_set_string]
  · intro val hq hf
    simp [spapr_cap_set_string, hq, hf]
  · intro val i hq hf
    simp [spapr_cap_set_string, hq, hf]

/-- Closed instance of C8 on the cfpc capability: the query value returns
the help text with no state change, an upper-case label is matched
case-insensitively and stores ordinal 2, and an unknown label fails. -/
theorem spapr_cap_set_string_cases_witness :
    spapr_cap_set_string (capability_table 3) sW ("?")
      = (sW, some cap_cfpc_possible.help) ∧
    spapr_cap_set_string (capability_table 3) sW ("FIXED")
      = ({ sW with
             cmd_line_caps := Function.update sW.cmd_line_caps 3 true,
             eff := ⟨Function.update sW.eff.caps 3 2⟩ }, none) ∧
    spapr_cap_set_string (capability_table 3) sW ("bogus")
      = (sW, some ("Invalid capability mode \"bogus\" for cap-cfpc")) :=
  ⟨(spapr_cap_set_string_cases (capability_table 3) sW).1,
   (spapr_cap_set_string_cases (capability_table 3) sW).2.2 ("FIXED") 2 (by decide) (by decide),
   (spapr_cap_set_string_cases (capability_table 3) sW).2.1 ("bogus") (by decide) (by decide)⟩

/-- C9 (amended): for every registered capability except hpt-max-page-size,
the apply function at the weakest level 0 succeeds for every backend
profile; the hpt-max-page-size apply rejects level 0, requiring an exponent
of at least 12. -/
theorem capability_apply_weakest_level (env : Env) (spapr : sPAPRMachineState) :
    (∀ i : Fin SPAPR_CAP_NUM, i ≠ SPAPR_CAP_HPT_MAXPAGESIZE →
      capability_apply i env spapr 0 = none) ∧
    capability_apply SPAPR_CAP_HPT_MAXPAGESIZE env spapr 0
      = some ("Require at least 4kiB hpt-max-page-size") := by
  constructor
  · intro i hi
    fin_cases i
    · simp [capability_apply, cap_htm_apply]
    · simp [capability_apply, cap_vsx_apply]
    · simp [capability_apply, cap_dfp_apply]
    · simp [capability_apply, cap_safe_cache_apply, Nat.not_lt_zero]
    · simp [capability_apply, cap_safe_bounds_check_apply, Nat.not_lt_zero]
    · simp [capability_apply, cap_safe_indirect_branch_apply]
    · exact absurd rfl hi
    · simp [capability_apply, cap_nested_kvm_hv_apply]
  · show (cap_hpt_maxpagesize_apply env spapr 0).1
        = some ("Require at least 4kiB hpt-max-page-size")
    simp [cap_hpt_maxpagesize_apply]

/-- Closed instance of C9 (amended): htm passes at level 0 and
hpt-max-page-size fails at level 0 under the concrete KVM profile. -/
theorem capability_apply_weakest_level_witness :
    capability_apply 0 env0 sW 0 = none ∧
    capability_apply SPAPR_CAP_HPT_MAXPAGESIZE env0 sW 0
      = some ("Require at least 4kiB hpt-max-page-size") :=
  ⟨(capability_apply_weakest_level env0 sW).1 0 (by decide),
   (capability_apply_weakest_level env0 sW).2⟩

/-- Counterexample to C9 as stated: the registered hpt-max-page-size
capability rejects the weakest level 0 instead of succeeding. -/
theorem capability_apply_weakest_level_counterexample :
    capability_apply SPAPR_CAP_HPT_MAXPAGESIZE env0 sW 0 ≠ none := by decide

/-- C10: the page-size filter predicate allows a candidate exponent exactly
when it is at most the configured maximum and either equals the segment
exponent or equals the special exponent 24; under the asserted precondition
that the candidate is at least the segment exponent it denies every
candidate above the ceiling and every candidate other than the segment
exponent and 24. -/
theorem spapr_pagesize_cb_characterisation (maxshift seg_pshift pshift : Nat)
    (hseg : seg_pshift ≤ pshift) :
    (spapr_pagesize_cb maxshift seg_pshift pshift = true ↔
      (pshift ≤ maxshift ∧ (pshift = seg_pshift ∨ pshift = 24))) ∧
    (maxshift < pshift → spapr_pagesize_cb maxshift seg_pshift pshift = false) ∧
    (pshift ≠ seg_pshift → pshift ≠ 24 →
      spapr_pagesize_cb maxshift seg_pshift pshift = false) := by
  have hchar : spapr_pagesize_cb maxshift seg_pshift pshift = true ↔
      (pshift ≤ maxshift ∧ (pshift = seg_pshift ∨ pshift = 24)) := by
    unfold spapr_pagesize_cb
    split_ifs with h1 h2
    · simp only [Bool.false_eq_true, false_iff]
      omega
    · simp only [Bool.false_eq_true, false_iff]
      omega
    · simp only [true_iff]
      omega
  refine ⟨hchar, ?_, ?_⟩
  · intro h
    cases hb : spapr_pagesize_cb maxshift seg_pshift pshift
    · rfl
    · exact absurd ((hchar.mp hb).1) (by omega)
  · intro h1 h2
    cases hb : spapr_pagesize_cb maxshift seg_pshift pshift
    · rfl
    · rcases (hchar.mp hb).2 with h | h
      · exact absurd h h1
      · exact absurd h h2

/-- Closed instance of C10: a 16MiB page (24) in a 64kiB segment (16) under
ceiling 30 is allowed; exponent 20 in a 4kiB segment is denied; exponent 30
above ceiling 24 is denied. -/
theorem spapr_pagesize_cb_characterisation_witness :
    spapr_pagesize_cb 30 16 24 = true ∧
    spapr_pagesize_cb 16 12 20 = false ∧
    spapr_pagesize_cb 24 16 30 = false :=
  ⟨(spapr_pagesize_cb_characterisation 30 16 24 (by decide)).1.mpr (by decide),
   (spapr_pagesize_cb_characterisation 16 12 20 (by decide)).2.2 (by decide) (by decide),
   (spapr_pagesize_cb_characterisation 24 16 30 (by decide)).2.1 (by decide)⟩
